import Mathlib

/-!
Verification of the reslice-synchronization / oblique-plane geometry engine
of an MPR (multi-planar reconstruction) medical-image viewer.

Each definition is a shallow embedding of a function of the Python source:
machine floats are modelled as real numbers (exact rationals where the code
performs no transcendental arithmetic), mutable objects as explicit state
records, and calls into the external VTK / skimage toolkits as parameters or
as stores of the values the code hands them.
-/

namespace MPR

/-! ## CommandSliceSelect (src/components/CommandSliceSelect.py)

`reslice_axes_changed(caller)` dispatches on which of the three reslice-cursor
widgets fired the event and calls `update_reslice` on the other two, which
calls `Render()` on each of them.  A `Render()` call is modelled by a function
`render : Fin 3 → ℕ` giving the total number of render triggers that one
`Render()` call on that widget causes (the direct render plus anything the
widget's own handlers trigger, including re-entrant propagation — the class
holds no "currently propagating" flag, so a nested invocation behaves exactly
like a top-level one). -/

/-- `CommandSliceSelect.update_reslice(widget1, widget2)`: renders both
widgets (the slider updates perform no further renders). -/
def update_reslice (render : Fin 3 → ℕ) (w1 w2 : Fin 3) : ℕ :=
  render w1 + render w2

/-- The pair of widgets `CommandSliceSelect.reslice_axes_changed` passes to
`update_reslice` for each caller (the if/elif chain of lines 15–20). -/
def targets (caller : Fin 3) : Fin 3 × Fin 3 :=
  if caller = 0 then (1, 2) else if caller = 1 then (0, 2) else (0, 1)

/-- `CommandSliceSelect.reslice_axes_changed(caller)`: total number of render
triggers produced by one propagation. -/
def reslice_axes_changed (render : Fin 3 → ℕ) (caller : Fin 3) : ℕ :=
  update_reslice render (targets caller).1 (targets caller).2

/-- The list of widgets rendered by one `reslice_axes_changed(caller)` call. -/
def rendered_widgets (caller : Fin 3) : List (Fin 3) :=
  [(targets caller).1, (targets caller).2]

/-- `ViewersConnection.connect_orthogonal_viewers` (lines 34–42) with three
orthogonal viewers: the observers attached to viewer `i`'s reslice-cursor
widget call `update_slice_from_reslice_cursor` on exactly the viewers `j ≠ i`. -/
def connected_observers (i : Fin 3) : List (Fin 3) :=
  (List.finRange 3).filter (fun j => j ≠ i)

/-! ## Oblique-plane geometry (src/viewers/QtFourthViewer.py)

`QtFourthViewer.set_oblique_angle` (lines 288–313) builds a `vtkTransform` by
`Translate(oblique_center); RotateZ(angle_degrees); Translate(-oblique_center)`
(vtkTransform pre-multiplies, so the resulting 4×4 matrix is
`T(c) · Rz(θ) · T(-c)`) and `DeepCopy`s that matrix into the reslice cursor's
reslice axes, overwriting whatever was there.  `RotateZ` takes degrees. -/

/-- 4×4 homogeneous translation matrix (`vtkTransform.Translate`). -/
noncomputable def translationM (c : Fin 3 → ℝ) : Matrix (Fin 4) (Fin 4) ℝ :=
  !![1, 0, 0, c 0; 0, 1, 0, c 1; 0, 0, 1, c 2; 0, 0, 0, 1]

/-- 4×4 homogeneous rotation about the Z axis by `deg` degrees
(`vtkTransform.RotateZ`). -/
noncomputable def rotZM (deg : ℝ) : Matrix (Fin 4) (Fin 4) ℝ :=
  !![Real.cos (deg * Real.pi / 180), -Real.sin (deg * Real.pi / 180), 0, 0;
     Real.sin (deg * Real.pi / 180), Real.cos (deg * Real.pi / 180), 0, 0;
     0, 0, 1, 0;
     0, 0, 0, 1]

/-- The matrix `QtFourthViewer.set_oblique_angle` writes into the reslice
axes: `Translate(c); RotateZ(deg); Translate(-c)` assembled by the
pre-multiplying `vtkTransform`, then `DeepCopy`ed over the previous axes
`prev` — which are therefore not read at all. -/
noncomputable def set_oblique_angle (deg : ℝ) (c : Fin 3 → ℝ)
    (prev : Matrix (Fin 4) (Fin 4) ℝ) : Matrix (Fin 4) (Fin 4) ℝ :=
  translationM c * rotZM deg * translationM (fun i => -(c i))

set_option maxHeartbeats 1000000 in
/-- Closed form of the matrix produced by `set_oblique_angle`. -/
theorem set_oblique_angle_entries (deg : ℝ) (c : Fin 3 → ℝ)
    (prev : Matrix (Fin 4) (Fin 4) ℝ) :
    set_oblique_angle deg c prev =
      !![Real.cos (deg * Real.pi / 180), -Real.sin (deg * Real.pi / 180), 0,
           c 0 - (Real.cos (deg * Real.pi / 180) * c 0 -
             Real.sin (deg * Real.pi / 180) * c 1);
         Real.sin (deg * Real.pi / 180), Real.cos (deg * Real.pi / 180), 0,
           c 1 - (Real.sin (deg * Real.pi / 180) * c 0 +
             Real.cos (deg * Real.pi / 180) * c 1);
         0, 0, 1, 0;
         0, 0, 0, 1] := by
  ext i j
  fin_cases i <;> fin_cases j <;>
    (simp [set_oblique_angle, translationM, rotZM, Matrix.mul_apply,
       Fin.sum_univ_four, Matrix.vecHead, Matrix.vecTail]; try ring)

/-- Modelled from the spec: the update C2 describes for an axial source view
(whose plane normal is the Z axis) — the previous fourth-view plane `prev`
rotated by `deg` degrees about that normal, applied about the 2D center
`center2D` lifted into 3D with the cursor center's out-of-plane coordinate
`cursorZ`. -/
noncomputable def spec_oblique_update_axial (deg : ℝ) (center2D : ℝ × ℝ)
    (cursorZ : ℝ) (prev : Matrix (Fin 4) (Fin 4) ℝ) : Matrix (Fin 4) (Fin 4) ℝ :=
  translationM ![center2D.1, center2D.2, cursorZ] * rotZM deg *
    translationM ![-center2D.1, -center2D.2, -cursorZ] * prev

/-- Homogeneous coordinates of a 3D point. -/
noncomputable def homog (p : Fin 3 → ℝ) : Fin 4 → ℝ := ![p 0, p 1, p 2, 1]

/-- Rotation of a point by `deg` degrees about the Z axis, applied about the
point `c` (the geometric description of what the code's transform does). -/
noncomputable def rotAboutZ (c : Fin 3 → ℝ) (deg : ℝ) (p : Fin 3 → ℝ) :
    Fin 3 → ℝ :=
  ![Real.cos (deg * Real.pi / 180) * (p 0 - c 0) -
      Real.sin (deg * Real.pi / 180) * (p 1 - c 1) + c 0,
    Real.sin (deg * Real.pi / 180) * (p 0 - c 0) +
      Real.cos (deg * Real.pi / 180) * (p 1 - c 1) + c 1,
    p 2]

/-- Display mode of the fourth viewer (`QtFourthViewer.current_mode`). -/
inductive Mode
  | outline
  | oblique
deriving DecidableEq

/-- State of `QtFourthViewer` relevant to the oblique plane: its mode and
oblique parameters, plus the shared `vtkResliceCursor`'s center and reslice
axes that it reads and writes. -/
structure FourthViewerState where
  current_mode : Mode
  oblique_angle : ℝ
  oblique_center : Fin 3 → ℝ
  cursor_center : Fin 3 → ℝ
  resliceAxes : Matrix (Fin 4) (Fin 4) ℝ

/-- `QtFourthViewer.set_oblique_angle(angle_degrees)`: stores the angle and,
when in oblique mode, overwrites the reslice axes with
`T(oblique_center)·Rz(angle)·T(-oblique_center)` and then re-displays
(`show_oblique_plane`, which re-reads `oblique_center` from the cursor,
line 234). In outline mode only the angle field changes. -/
noncomputable def set_oblique_angle_st (f : FourthViewerState) (deg : ℝ) :
    FourthViewerState :=
  if f.current_mode = Mode.oblique then
    { f with oblique_angle := deg,
             resliceAxes := set_oblique_angle deg f.oblique_center f.resliceAxes,
             oblique_center := f.cursor_center }
  else
    { f with oblique_angle := deg }

/-- `QtFourthViewer.set_oblique_center(x, y, z)`: stores the new center and
calls `resliceCursor.SetCenter`; the reslice axes are not touched. (This also
covers the other translate path, `CommandSliceSelect.end_interaction`, which
likewise only calls `SetCenter`.) -/
def set_oblique_center_st (f : FourthViewerState) (p : Fin 3 → ℝ) :
    FourthViewerState :=
  { f with oblique_center := p, cursor_center := p }

/-- A mutation of the reslice cursor reachable in the source: an oblique
rotation (`set_oblique_angle`) or a translation (`set_oblique_center` /
`SetCenter`). -/
inductive CursorOp
  | rotate (deg : ℝ)
  | translate (p : Fin 3 → ℝ)

/-- Apply one cursor mutation. -/
noncomputable def applyOp (f : FourthViewerState) : CursorOp → FourthViewerState
  | .rotate deg => set_oblique_angle_st f deg
  | .translate p => set_oblique_center_st f p

/-- Apply a sequence of cursor mutations in order. -/
noncomputable def applyOps (f : FourthViewerState) (ops : List CursorOp) :
    FourthViewerState :=
  ops.foldl applyOp f

theorem castSucc_zero3 : Fin.castSucc (0 : Fin 3) = (0 : Fin 4) := rfl

theorem castSucc_one3 : Fin.castSucc (1 : Fin 3) = (1 : Fin 4) := rfl

theorem castSucc_two3 : Fin.castSucc (2 : Fin 3) = (2 : Fin 4) := rfl

/-- Dot product of the `i`-th and `j`-th cursor axes, i.e. of columns `i`, `j`
of the upper-left 3×3 block of the 4×4 reslice-axes matrix. -/
noncomputable def axisDot (M : Matrix (Fin 4) (Fin 4) ℝ) (i j : Fin 3) : ℝ :=
  ∑ k : Fin 3, M k.castSucc i.castSucc * M k.castSucc j.castSucc

/-- The three cursor axes stored in `M` are exactly orthonormal. -/
def Orthonormal3 (M : Matrix (Fin 4) (Fin 4) ℝ) : Prop :=
  ∀ i j : Fin 3, axisDot M i j = if i = j then 1 else 0

/-- The matrix written by `set_oblique_angle` always has exactly orthonormal
axis columns (they are the columns of a Z rotation). -/
theorem ortho_set_oblique (deg : ℝ) (c : Fin 3 → ℝ)
    (prev : Matrix (Fin 4) (Fin 4) ℝ) :
    Orthonormal3 (set_oblique_angle deg c prev) := by
  intro i j
  rw [set_oblique_angle_entries]
  fin_cases i <;> fin_cases j <;>
    (simp [axisDot, Fin.sum_univ_three, castSucc_zero3, castSucc_one3,
       castSucc_two3, Matrix.vecHead, Matrix.vecTail]
     <;> ring_nf
     <;> simp [Real.sin_sq_add_cos_sq, Real.cos_sq_add_sin_sq])

/-- The identity reslice axes (the cursor's initial state) are orthonormal. -/
theorem orthonormal_one : Orthonormal3 (1 : Matrix (Fin 4) (Fin 4) ℝ) := by
  intro i j
  fin_cases i <;> fin_cases j <;>
    simp [axisDot, Fin.sum_univ_three, castSucc_zero3, castSucc_one3,
      castSucc_two3, Matrix.one_apply]

/-- One cursor mutation preserves orthonormality of the axes. -/
theorem ortho_applyOp (f : FourthViewerState) (op : CursorOp)
    (h : Orthonormal3 f.resliceAxes) : Orthonormal3 (applyOp f op).resliceAxes := by
  cases op with
  | rotate deg =>
      by_cases hm : f.current_mode = Mode.oblique <;>
        simp [applyOp, set_oblique_angle_st, hm, ortho_set_oblique, h]
  | translate p => simpa [applyOp, set_oblique_center_st] using h

/-- Any sequence of cursor mutations preserves orthonormality of the axes. -/
theorem ortho_applyOps (ops : List CursorOp) (f : FourthViewerState)
    (h : Orthonormal3 f.resliceAxes) : Orthonormal3 (applyOps f ops).resliceAxes := by
  induction ops generalizing f with
  | nil => exact h
  | cons op rest ih => exact ih (applyOp f op) (ortho_applyOp f op h)

theorem rotZM_zero : rotZM 0 = 1 := by
  ext i j
  fin_cases i <;> fin_cases j <;>
    simp [rotZM, Matrix.one_apply, Matrix.vecHead, Matrix.vecTail]

theorem translationM_zero : translationM ![0, 0, 0] = 1 := by
  ext i j
  fin_cases i <;> fin_cases j <;>
    simp [translationM, Matrix.one_apply, Matrix.vecHead, Matrix.vecTail]

theorem translationM_negzero : translationM ![-(0 : ℝ), -0, -0] = 1 := by
  ext i j
  fin_cases i <;> fin_cases j <;>
    simp [translationM, Matrix.one_apply, Matrix.vecHead, Matrix.vecTail]

/-! ## ROI synchronization (src/viewers/ROIViewer.py)

`ROIViewer` holds three `vtkBoxWidget`s, one per orthogonal view.  The
external `vtkBoxWidget` is modelled as a store of its six bounds
`(xmin, xmax, ymin, ymax, zmin, zmax)`: `GetPlanes(...).GetBounds()` reads
them and `PlaceWidget(bounds)` writes them.  Bounds are exact rationals (the
floats of the source carry no transcendental arithmetic on this path).

`update_roi(caller, event)` (lines 20–29) reads the caller's bounds and calls
`PlaceWidget` with that same tuple on each of the other two widgets.  It
contains no well-formedness check and no clamping of any kind. -/

/-- Bounds of one box widget: index 0,1 = x min/max, 2,3 = y, 4,5 = z. -/
abbrev Bounds := Fin 6 → ℚ

/-- `ROIViewer.update_roi(caller)`: every widget other than the caller is
`PlaceWidget`-ed with the caller's bounds; the caller keeps its own. -/
def update_roi (widgets : Fin 3 → Bounds) (caller : Fin 3) : Fin 3 → Bounds :=
  fun w => if w = caller then widgets w else widgets caller

/-- Modelled from the spec: clamping a coordinate to the volume extent
`[lo, hi]` (the behaviour claim C4 attributes to `onBoxEdited`; the source has
no such operation). -/
def clampTo (lo hi x : ℚ) : ℚ := max lo (min hi x)

/-! ## Reference-line interaction (src/viewers/ReferenceLineManager.py)

`ReferenceLineManager` keeps ONE `line_angle` and ONE `line_center` field,
shared by all three orthogonal views, plus per-view dictionaries `ref_lines`
(the `vtkLineSource` endpoints, `None` until `_create_line_in_view` ran) and
`control_points` (the three sphere-actor positions per view, `None` until
created).  Mouse handlers mutate this state. -/

/-- Identifier of an orthogonal view. -/
inductive ViewName
  | axial
  | coronal
  | sagittal
deriving DecidableEq

/-- One of the three interactive control points on a reference line. -/
inductive CtrlPoint
  | left
  | right
  | center
deriving DecidableEq

/-- Kind of drag in progress (`ReferenceLineManager.drag_type`). -/
inductive DragType
  | rotate
  | translate
deriving DecidableEq

/-- A Python runtime fault. -/
inductive PyError
  | typeError
deriving DecidableEq

/-- The loaded image as the manager reads it from the viewer:
`GetDimensions()` and `GetBounds()`. -/
structure ImageData where
  dims : Fin 3 → ℕ
  bounds : Fin 6 → ℝ

/-- State of `ReferenceLineManager` (constructor lines 23–47).  `ref_lines v`
holds view `v`'s line endpoints (`None` before creation); `control_points v
pt` holds the position of control point `pt`'s actor in view `v` (`None`
before creation — the source stores actor objects; only their positions are
observable). -/
@[ext]
structure RLState where
  line_angle : ℝ
  line_center : ℝ × ℝ
  is_dragging : Bool
  drag_type : Option DragType
  active_view : Option ViewName
  drag_start_pos : Option (ℝ × ℝ)
  ref_lines : ViewName → Option ((ℝ × ℝ) × (ℝ × ℝ))
  control_points : ViewName → CtrlPoint → Option (ℝ × ℝ)

/-- The state `ReferenceLineManager.__init__` builds: angle 0, center [0,0],
no drag, no lines or control points created yet. -/
def rl_init : RLState :=
  { line_angle := 0
    line_center := (0, 0)
    is_dragging := false
    drag_type := none
    active_view := none
    drag_start_pos := none
    ref_lines := fun _ => none
    control_points := fun _ _ => none }

/-- `numpy.arctan2(y, x)`: the argument of the point `(x, y)`, in `(-π, π]`. -/
noncomputable def atan2 (y x : ℝ) : ℝ := Complex.arg { re := x, im := y }

/-- `numpy.degrees`. -/
noncomputable def degrees (r : ℝ) : ℝ := r * 180 / Real.pi

/-- `numpy.radians`. -/
noncomputable def radians (d : ℝ) : ℝ := d * Real.pi / 180

/-- View-specific initial line center computed from the image bounds
(`_update_line_geometry` lines 130–137). -/
noncomputable def init_line_center (v : ViewName) (b : Fin 6 → ℝ) : ℝ × ℝ :=
  match v with
  | .axial => ((b 0 + b 1) / 2, (b 2 + b 3) / 2)
  | .coronal => ((b 0 + b 1) / 2, (b 4 + b 5) / 2)
  | .sagittal => ((b 2 + b 3) / 2, (b 4 + b 5) / 2)

open Classical in
/-- `ReferenceLineManager._update_line_geometry(view_name, viewer)` (lines
113–172): no-op when view `v`'s line was never created or the viewer has no
image; otherwise (re)initializes the shared center from the bounds only when
it is still `[0, 0]`, then recomputes view `v`'s line endpoints and control
point positions from the SHARED `line_angle`/`line_center` — every view is
drawn from the same two shared fields. -/
noncomputable def update_line_geometry (s : RLState) (v : ViewName)
    (img : Option ImageData) : RLState :=
  match s.ref_lines v with
  | none => s
  | some _ =>
    match img with
    | none => s
    | some im =>
      let s1 := if s.line_center = ((0 : ℝ), (0 : ℝ)) then
          { s with line_center := init_line_center v im.bounds } else s
      let cx := s1.line_center.1
      let cy := s1.line_center.2
      let maxd : ℝ := (max (max (im.dims 0) (im.dims 1)) (im.dims 2) : ℕ)
      let half := maxd * 0.8 / 2
      let r := radians s1.line_angle
      let off := maxd * 0.05
      { s1 with
        ref_lines := fun w => if w = v then
            some ((cx - half * Real.cos r, cy - half * Real.sin r),
                  (cx + half * Real.cos r, cy + half * Real.sin r))
          else s1.ref_lines w,
        control_points := fun w pt => if w = v then
            some (match pt with
              | .left => (cx - off * Real.cos r, cy - off * Real.sin r)
              | .right => (cx + off * Real.cos r, cy + off * Real.sin r)
              | .center => (cx, cy))
          else s1.control_points w pt }

/-- `ReferenceLineManager.handle_mouse_motion(event, view_name, viewer)`
(lines 210–248): no-op unless a drag is active in this view and the event has
coordinates.  A rotate drag recomputes the SHARED `line_angle` as
`degrees(arctan2(dy, dx))` from the absolute cursor position relative to the
shared center (lines 227–231, never by accumulating deltas); a translate drag
shifts the shared center by the motion delta.  Then the view's line geometry
is recomputed.  (The `update_oblique_plane`/`Render` calls that follow only
read `line_angle`; their effect is stated via `set_oblique_angle`.  The
translate branch with `drag_start_pos = none` cannot be reached from the
source's flow, since a press stores it before any drag; it is modelled as
leaving the state unchanged.) -/
noncomputable def handle_mouse_motion (s : RLState) (v : ViewName)
    (img : Option ImageData) (event : Option (ℝ × ℝ)) : RLState :=
  if s.is_dragging = false ∨ s.active_view ≠ some v then s
  else match event with
  | none => s
  | some pos =>
    let s1 := match s.drag_type with
      | some .rotate =>
        { s with line_angle :=
            degrees (atan2 (pos.2 - s.line_center.2) (pos.1 - s.line_center.1)) }
      | some .translate =>
        match s.drag_start_pos with
        | some start =>
          { s with
            line_center := (s.line_center.1 + (pos.1 - start.1),
                            s.line_center.2 + (pos.2 - start.2)),
            drag_start_pos := some pos }
        | none => s
      | none => s
    update_line_geometry s1 v img

open Classical in
/-- The loop body of `handle_mouse_press` (lines 192–206): iterate the view's
control points in dictionary order; reading `point_data['actor']` while the
point was never created (`None`) raises a `TypeError`; a hit within the fixed
15.0 tolerance starts a drag (rotate for left/right, translate for center). -/
noncomputable def press_loop (s : RLState) (v : ViewName) (click : ℝ × ℝ) :
    List CtrlPoint → Except PyError (Bool × RLState)
  | [] => .ok (false, s)
  | pt :: rest =>
    match s.control_points v pt with
    | none => .error .typeError
    | some pos =>
      if Real.sqrt ((click.1 - pos.1) ^ 2 + (click.2 - pos.2) ^ 2) < 15 then
        .ok (true,
          { s with
            is_dragging := true
            active_view := some v
            drag_start_pos := some click
            drag_type := some (if pt = CtrlPoint.center then DragType.translate else DragType.rotate) })
      else press_loop s v click rest

/-- `ReferenceLineManager.handle_mouse_press(event, view_name)` (lines
174–208): events without coordinates are ignored, otherwise the control
points are hit-tested in insertion order left, right, center. -/
noncomputable def handle_mouse_press (s : RLState) (v : ViewName)
    (event : Option (ℝ × ℝ)) : Except PyError (Bool × RLState) :=
  match event with
  | none => .ok (false, s)
  | some click =>
    press_loop s v click [CtrlPoint.left, CtrlPoint.right, CtrlPoint.center]

/-- The angle from which the source draws view `v`'s reference line:
`_update_line_geometry` reads the single shared `self.line_angle` field
(line 127) whichever view it is drawing. -/
def line_angle_used (s : RLState) (_v : ViewName) : ℝ := s.line_angle

/-- Characterization of one rotate-drag motion event. -/
theorem rotate_motion_eq (s : RLState) (v : ViewName) (img : Option ImageData)
    (p : ℝ × ℝ) (h1 : s.is_dragging = true) (h2 : s.drag_type = some DragType.rotate)
    (h3 : s.active_view = some v) :
    handle_mouse_motion s v img (some p) =
      update_line_geometry
        { s with line_angle :=
            degrees (atan2 (p.2 - s.line_center.2) (p.1 - s.line_center.1)) } v img := by
  simp [handle_mouse_motion, h1, h2, h3]

/-- `_update_line_geometry` only touches the per-view geometry (and, when the
center was still `[0,0]`, the center): all drag bookkeeping fields and, for a
non-degenerate center, the angle and center are unchanged. -/
theorem ulg_fields (s : RLState) (v : ViewName) (img : Option ImageData)
    (hc : s.line_center ≠ (0 : ℝ × ℝ)) :
    (update_line_geometry s v img).line_angle = s.line_angle ∧
    (update_line_geometry s v img).line_center = s.line_center ∧
    (update_line_geometry s v img).is_dragging = s.is_dragging ∧
    (update_line_geometry s v img).drag_type = s.drag_type ∧
    (update_line_geometry s v img).active_view = s.active_view ∧
    (update_line_geometry s v img).drag_start_pos = s.drag_start_pos := by
  cases hrl : s.ref_lines v with
  | none => simp [update_line_geometry, hrl]
  | some w =>
    cases img with
    | none => simp [update_line_geometry, hrl]
    | some im => simp [update_line_geometry, hrl, hc]

/-- Drag bookkeeping after one rotate motion, and the absolute-angle formula:
the new shared angle is `degrees(arctan2 ...)` of the event position alone. -/
theorem rotate_motion_fields (s : RLState) (v : ViewName) (img : Option ImageData)
    (p : ℝ × ℝ) (h1 : s.is_dragging = true) (h2 : s.drag_type = some DragType.rotate)
    (h3 : s.active_view = some v) (hc : s.line_center ≠ (0 : ℝ × ℝ)) :
    (handle_mouse_motion s v img (some p)).is_dragging = true ∧
    (handle_mouse_motion s v img (some p)).drag_type = some DragType.rotate ∧
    (handle_mouse_motion s v img (some p)).active_view = some v ∧
    (handle_mouse_motion s v img (some p)).line_center = s.line_center ∧
    (handle_mouse_motion s v img (some p)).line_angle =
      degrees (atan2 (p.2 - s.line_center.2) (p.1 - s.line_center.1)) := by
  rw [rotate_motion_eq s v img p h1 h2 h3]
  have hf := ulg_fields { s with line_angle := degrees (atan2 (p.2 - s.line_center.2) (p.1 - s.line_center.1)) } v img hc
  refine ⟨by rw [hf.2.2.1]; simp [h1], by rw [hf.2.2.2.1]; simp [h2],
    by rw [hf.2.2.2.2.1]; simp [h3], by rw [hf.2.1], by rw [hf.1]⟩

set_option maxHeartbeats 1000000 in
/-- A rotate motion makes the earlier motion of the same drag irrelevant: the
state is a function of the last event position only (the angle is measured
absolutely, not accumulated). -/
theorem rotate_motion_absorb (s : RLState) (v : ViewName) (img : Option ImageData)
    (q p : ℝ × ℝ) (h1 : s.is_dragging = true)
    (h2 : s.drag_type = some DragType.rotate) (h3 : s.active_view = some v)
    (hc : s.line_center ≠ (0 : ℝ × ℝ)) :
    handle_mouse_motion (handle_mouse_motion s v img (some q)) v img (some p)
      = handle_mouse_motion s v img (some p) := by
  cases hrl : s.ref_lines v with
  | none =>
    simp [handle_mouse_motion, update_line_geometry, h1, h2, h3, hrl]
  | some w =>
    cases img with
    | none =>
      simp [handle_mouse_motion, update_line_geometry, h1, h2, h3, hrl]
    | some im =>
      simp [handle_mouse_motion, update_line_geometry, h1, h2, h3, hc, hrl]
      constructor
      · funext w'
        by_cases hw : w' = v <;> simp [hw]
      · funext w' pt
        by_cases hw : w' = v <;> simp [hw]

/-- A whole drag gesture: fold of motion events. -/
noncomputable def motionsFold (s : RLState) (v : ViewName) (img : Option ImageData)
    (ps : List (ℝ × ℝ)) : RLState :=
  ps.foldl (fun st p => handle_mouse_motion st v img (some p)) s

/-- A rotate-drag sweep ends in the state determined by its final event
alone, whatever the intermediate steps were. -/
theorem motionsFold_absorb (v : ViewName) (img : Option ImageData) :
    ∀ (ps : List (ℝ × ℝ)) (s : RLState) (p : ℝ × ℝ),
      s.is_dragging = true → s.drag_type = some DragType.rotate →
      s.active_view = some v → s.line_center ≠ (0 : ℝ × ℝ) →
      motionsFold s v img (ps ++ [p]) = handle_mouse_motion s v img (some p)
  | [], s, p, _, _, _, _ => by simp [motionsFold]
  | q :: rest, s, p, h1, h2, h3, hc => by
    have hfld := rotate_motion_fields s v img q h1 h2 h3 hc
    have step : motionsFold s v img ((q :: rest) ++ [p])
        = motionsFold (handle_mouse_motion s v img (some q)) v img (rest ++ [p]) := by
      simp [motionsFold]
    rw [step, motionsFold_absorb v img rest (handle_mouse_motion s v img (some q)) p
      hfld.1 hfld.2.1 hfld.2.2.1 (by rw [hfld.2.2.2.1]; exact hc)]
    exact rotate_motion_absorb s v img q p h1 h2 h3 hc

/-! ## Volume load (src/app.py, MainWindow.load_data lines 162–174)

`load_data(filename)` calls `connect_on_data` on the VTK base (image reading),
on the three orthogonal viewers and the fourth viewer (slice display), on
`ViewersConnection` (look-up-table wiring) and on the organ-detection widget.
`MainWindow` holds no `ReferenceLineManager` and nothing reachable from
`load_data` references one, so the reference-line state is not touched by a
load; the only geometry state the load path writes is
`QtFourthViewer.connect_on_data` (lines 324–334), which re-initializes the
oblique center to the new image's center. -/

/-- `vtkImageData.GetCenter()`: midpoint of the bounds on each axis. -/
noncomputable def imageCenter (im : ImageData) : Fin 3 → ℝ :=
  fun i => match i with
  | 0 => (im.bounds 0 + im.bounds 1) / 2
  | 1 => (im.bounds 2 + im.bounds 3) / 2
  | 2 => (im.bounds 4 + im.bounds 5) / 2

/-- `QtFourthViewer.connect_on_data(path)`: sets `oblique_center` to the new
image's center (then `update_display` only re-renders). -/
noncomputable def connect_on_data_fourth (f : FourthViewerState) (im : ImageData) :
    FourthViewerState :=
  { f with oblique_center := imageCenter im }

/-- The session state the claims about loading concern: the reference-line
manager's state, the fourth viewer's oblique state, and the loaded volume. -/
structure Session where
  rl : RLState
  fourth : FourthViewerState
  volume : Option ImageData

/-- `MainWindow.load_data(filename)` as it acts on the session state. -/
noncomputable def load_data (s : Session) (im : ImageData) : Session :=
  { s with volume := some im, fourth := connect_on_data_fourth s.fourth im }

/-! ## Outline contour extraction
(src/viewers/QtFourthViewer.py, `_extract_contours` lines 182–215)

The skimage library functions the code calls are external; they are
parameters of the model.  Scalars on this path are exact rationals (the
source performs only subtraction, division and comparison on them).
`numpy`'s `min`/`max` of an empty array fault; the empty slice is modelled as
producing no mask (the application never hands one over). -/

/-- The external skimage operations used by `_extract_contours`. -/
structure SkimageOps where
  threshold_otsu : List (List ℚ) → ℚ
  remove_small_objects : List (List Bool) → ℕ → List (List Bool)
  binary_closing : List (List Bool) → ℕ → List (List Bool)
  find_contours : List (List Bool) → ℚ → List (List (ℚ × ℚ))

/-- Lines 187–207 of `_extract_contours`: normalize the slice to `[0, 1]`
(returning nothing when it is constant), threshold it with Otsu's method into
a binary mask, then clean the mask with `remove_small_objects(min_size=100)`
and `binary_closing(disk(3))`. -/
def binary_mask (ops : SkimageOps) (sliceArr : List (List ℚ)) :
    Option (List (List Bool)) :=
  match sliceArr.flatten with
  | [] => none
  | v :: vs =>
    let smin := vs.foldl min v
    let smax := vs.foldl max v
    if smax > smin then
      let normalized := sliceArr.map (fun row => row.map (fun x => (x - smin) / (smax - smin)))
      let t := ops.threshold_otsu normalized
      let mask := normalized.map (fun row => row.map (fun x => decide (x > t)))
      some (ops.binary_closing (ops.remove_small_objects mask 100) 3)
    else none

/-- `QtFourthViewer._extract_contours(slice_array)` (lines 209–215): trace the
binary mask's contours at isovalue 0.5 and keep only loops with more than 20
points. -/
def extract_contours (ops : SkimageOps) (sliceArr : List (List ℚ)) :
    List (List (ℚ × ℚ)) :=
  match binary_mask ops sliceArr with
  | none => []
  | some mask => (ops.find_contours mask 0.5).filter (fun c => 20 < c.length)

/-! ## Claims -/

/-- C1, counterexample.  The claim says one `onCursorChanged(origin)` call
produces exactly 2 downstream render triggers and never more, regardless of
what the notified views' render handlers do, a re-entrant invocation being a
no-op.  `CommandSliceSelect` holds no propagation flag, so when each of the
two notified widgets' render handlers re-enters the propagation once (each
inner propagation rendering 2 widgets of its own), one top-level
`reslice_axes_changed` call on widget 0 produces 6 render triggers, not 2: a
re-entrant invocation is a full propagation, not a no-op. -/
theorem reslice_propagation_reentrant_counterexample :
    reslice_axes_changed (fun w => 1 + reslice_axes_changed (fun _ => 1) w) 0 = 6 ∧
    reslice_axes_changed (fun w => 1 + reslice_axes_changed (fun _ => 1) w) 0 ≠ 2 := by
  decide

/-- C1, amended.  One `reslice_axes_changed(origin)` call renders exactly the
2 widgets other than the origin — never the origin's own handler — and so
produces exactly 2 render triggers when each notified widget's render
triggers exactly one render (i.e. when no handler re-enters the propagation);
likewise the observers `connect_orthogonal_viewers` attaches to a viewer's
widget notify exactly the 2 other viewers.  The source has no re-entrancy
guard, so the "regardless of what the handlers do" part of the claim fails
(see the counterexample). -/
theorem reslice_propagation_unit_handlers (render : Fin 3 → ℕ) (caller : Fin 3)
    (h : ∀ w, render w = 1) :
    reslice_axes_changed render caller = 2 ∧
    caller ∉ rendered_widgets caller ∧
    (rendered_widgets caller).length = 2 ∧
    caller ∉ connected_observers caller ∧
    (connected_observers caller).length = 2 := by
  fin_cases caller <;>
    simp [reslice_axes_changed, update_reslice, targets, rendered_widgets,
      connected_observers, h] <;> decide

/-- C1, witness for the amended theorem at `caller = 0` with unit render
handlers. -/
theorem reslice_propagation_unit_handlers_witness :
    (∀ w : Fin 3, (fun _ : Fin 3 => 1) w = 1) ∧
    (reslice_axes_changed (fun _ => 1) 0 = 2 ∧
      (0 : Fin 3) ∉ rendered_widgets 0 ∧
      (rendered_widgets 0).length = 2 ∧
      (0 : Fin 3) ∉ connected_observers 0 ∧
      (connected_observers 0).length = 2) :=
  ⟨fun _ => rfl, reslice_propagation_unit_handlers (fun _ => 1) 0 (fun _ => rfl)⟩

/-- C2, counterexample.  The claim says the resulting fourth-view plane
equals the PREVIOUS plane rotated by `angleDegrees` about the source view's
normal, about the lifted 2D center.  With `angleDegrees = 0` (a rotation by
0° is the identity, whatever the axis and center) and previous axes equal to
a unit translation in x, the claimed result is that translation unchanged,
but `set_oblique_angle` overwrites the axes with
`T(c)·Rz(0)·T(-c) = identity`: the previous plane is never read. -/
theorem oblique_update_ignores_previous_plane_counterexample :
    set_oblique_angle 0 ![0, 0, 0] (translationM ![1, 0, 0]) ≠
      spec_oblique_update_axial 0 (0, 0) 0 (translationM ![1, 0, 0]) := by
  have hspec : spec_oblique_update_axial 0 (0, 0) 0 (translationM ![1, 0, 0]) =
      translationM ![1, 0, 0] := by
    simp [spec_oblique_update_axial, rotZM_zero, translationM_negzero, translationM_zero]
  have hcode : set_oblique_angle 0 ![0, 0, 0] (translationM ![1, 0, 0]) = 1 := by
    have hneg : (fun i => -((![0, 0, 0] : Fin 3 → ℝ) i)) = ![-(0 : ℝ), -0, -0] := by
      funext i
      fin_cases i <;> simp [Matrix.vecHead, Matrix.vecTail]
    simp [set_oblique_angle, hneg, rotZM_zero, translationM_negzero, translationM_zero]
  intro h
  rw [hspec, hcode] at h
  have h03 := congrFun (congrFun h 0) 3
  simp [translationM, Matrix.one_apply, Matrix.vecHead, Matrix.vecTail] at h03

/-- C2, amended.  `set_oblique_angle(angleDegrees)` replaces the fourth-view
reslice axes outright with the transform rotating space by `angleDegrees`
about the Z axis applied about the 3D oblique center (the cursor center):
the result does not depend on the previous axes — and, as the definition
records, the rotation axis is always Z and `center2D` plays no role. -/
theorem oblique_update_absolute_rotation_about_z (deg : ℝ) (c : Fin 3 → ℝ)
    (prev prev' : Matrix (Fin 4) (Fin 4) ℝ) (p : Fin 3 → ℝ) :
    set_oblique_angle deg c prev = set_oblique_angle deg c prev' ∧
    (set_oblique_angle deg c prev).mulVec (homog p) = homog (rotAboutZ c deg p) := by
  refine ⟨rfl, ?_⟩
  funext i
  rw [set_oblique_angle_entries]
  fin_cases i <;>
    (simp [homog, rotAboutZ, Matrix.mulVec, Matrix.dotProduct,
       Fin.sum_univ_four, Matrix.vecHead, Matrix.vecTail]; try ring)

/-- C3.  After `update_roi` triggered by an edit of widget `caller` with
bounds `widgets caller`, every widget — in particular each of the two others
— holds exactly those bounds, unchanged, so at rest all three widgets' bounds
are identical. -/
theorem roi_bounds_identical_after_edit (widgets : Fin 3 → Bounds)
    (caller w w' : Fin 3) :
    update_roi widgets caller w = widgets caller ∧
    update_roi widgets caller w = update_roi widgets caller w' := by
  constructor
  · by_cases hw : w = caller <;> simp [update_roi, hw]
  · by_cases hw : w = caller <;> by_cases hw' : w' = caller <;>
      simp [update_roi, hw, hw']

/-- C4, counterexample.  The claim says an edit with `xmin = -1000` on a
volume of extent `[0, 511]` stores bounds clamped to `[0, 511]`.
`update_roi` stores `-1000` itself; the clamped value would be `0`. -/
theorem roi_no_clamping_counterexample :
    update_roi (fun _ => ![(-1000 : ℚ), 100000, 0, 100, 0, 100]) 0 1 0 = -1000 ∧
    clampTo 0 511 (-1000) = 0 ∧ ((-1000 : ℚ)) ≠ 0 := by
  decide

/-- C4, amended.  `update_roi` never rejects and never raises (it is a total
copy): the edited bounds are applied verbatim to every widget — but no
validation or clamping happens, so a coordinate below the volume extent is
stored as-is and differs from its clamped value. -/
theorem roi_bounds_copied_verbatim (widgets : Fin 3 → Bounds) (caller w : Fin 3)
    (k : Fin 6) (lo hi : ℚ) (hlh : lo ≤ hi) (hout : widgets caller k < lo) :
    update_roi widgets caller w k = widgets caller k ∧
    update_roi widgets caller w k ≠ clampTo lo hi (widgets caller k) := by
  have hcopy : update_roi widgets caller w k = widgets caller k := by
    by_cases hw : w = caller <;> simp [update_roi, hw]
  refine ⟨hcopy, ?_⟩
  rw [hcopy]
  intro heq
  have hge : lo ≤ clampTo lo hi (widgets caller k) := le_max_left _ _
  rw [← heq] at hge
  exact absurd hge (not_le.mpr hout)

/-- C4, witness for the amended theorem: the `xmin = -1000` edit against
extent `[0, 511]`. -/
theorem roi_bounds_copied_verbatim_witness :
    ((0 : ℚ) ≤ 511 ∧
      (fun _ : Fin 3 => (![(-1000 : ℚ), 100000, 0, 100, 0, 100] : Bounds)) 0 0 < 0) ∧
    (update_roi (fun _ => ![(-1000 : ℚ), 100000, 0, 100, 0, 100]) 0 1 0 =
        (fun _ : Fin 3 => (![(-1000 : ℚ), 100000, 0, 100, 0, 100] : Bounds)) 0 0 ∧
      update_roi (fun _ => ![(-1000 : ℚ), 100000, 0, 100, 0, 100]) 0 1 0 ≠
        clampTo 0 511 ((fun _ : Fin 3 => (![(-1000 : ℚ), 100000, 0, 100, 0, 100] : Bounds)) 0 0)) :=
  ⟨⟨by decide, by decide⟩,
    roi_bounds_copied_verbatim (fun _ => ![(-1000 : ℚ), 100000, 0, 100, 0, 100])
      0 1 0 0 511 (by decide) (by decide)⟩

/-- C6.  Starting from orthonormal reslice axes (the cursor starts at the
identity), every sequence of rotate (`set_oblique_angle`) and translate
(`set_oblique_center` / `SetCenter`) mutations leaves the three cursor axes
exactly orthonormal — rotations overwrite the linear part with the columns of
a Z rotation and translations do not touch the axes — and in particular
within the claim's 1e-6 tolerance: off-diagonal axis dot products are 0 and
each axis has unit norm.  Since the mutation sequence is arbitrary, this
holds after every prefix, i.e. after every mutation. -/
theorem cursor_axes_orthonormal_invariant (f : FourthViewerState)
    (ops : List CursorOp) (h : Orthonormal3 f.resliceAxes) :
    Orthonormal3 (applyOps f ops).resliceAxes ∧
    (∀ i j : Fin 3, i ≠ j → |axisDot (applyOps f ops).resliceAxes i j| ≤ 1 / 1000000) ∧
    (∀ i : Fin 3, |axisDot (applyOps f ops).resliceAxes i i - 1| ≤ 1 / 1000000) := by
  have ho := ortho_applyOps ops f h
  refine ⟨ho, fun i j hij => ?_, fun i => ?_⟩
  · rw [ho i j, if_neg hij]
    norm_num
  · rw [ho i i, if_pos rfl]
    norm_num

/-- The fourth viewer in oblique mode with the cursor's initial identity
axes. -/
noncomputable def fourthInit : FourthViewerState :=
  { current_mode := Mode.oblique
    oblique_angle := 0
    oblique_center := fun _ => 0
    cursor_center := fun _ => 0
    resliceAxes := 1 }

/-- C6, witness: a translate followed by a 30° oblique rotation from the
initial state. -/
theorem cursor_axes_orthonormal_invariant_witness :
    Orthonormal3 fourthInit.resliceAxes ∧
    (Orthonormal3 (applyOps fourthInit
        [CursorOp.translate (fun _ => 5), CursorOp.rotate 30]).resliceAxes ∧
      (∀ i j : Fin 3, i ≠ j → |axisDot (applyOps fourthInit
          [CursorOp.translate (fun _ => 5), CursorOp.rotate 30]).resliceAxes i j|
            ≤ 1 / 1000000) ∧
      (∀ i : Fin 3, |axisDot (applyOps fourthInit
          [CursorOp.translate (fun _ => 5), CursorOp.rotate 30]).resliceAxes i i - 1|
            ≤ 1 / 1000000)) :=
  ⟨orthonormal_one,
    cursor_axes_orthonormal_invariant fourthInit
      [CursorOp.translate (fun _ => 5), CursorOp.rotate 30] orthonormal_one⟩

/-- C7.  The claim says a mouse press delivered while the originating view
has no loaded Volume is ignored as a no-op.  The source's
`handle_mouse_press` performs no volume check at all: with no volume loaded
the control points were never created (they are `None`, as `__init__` leaves
them), and the very first loop iteration evaluates
`point_data['actor']` on `None`, raising a `TypeError` — the press faults
instead of being ignored. -/
theorem mouse_press_without_volume_faults :
    handle_mouse_press rl_init ViewName.axial (some (10, 10)) =
      Except.error PyError.typeError := by
  simp [handle_mouse_press, press_loop, rl_init]

/-- A reference-line manager state in the middle of a rotate drag with a
non-default angle, as left by user interaction. -/
def rl_dragging_example : RLState :=
  { rl_init with
    line_angle := 45
    line_center := (5, 5)
    is_dragging := true
    drag_type := some DragType.rotate
    active_view := some ViewName.axial
    drag_start_pos := some (7, 7) }

/-- A loaded 256×256×100 image. -/
noncomputable def imgExample : ImageData :=
  { dims := ![256, 256, 100]
    bounds := ![0, 255, 0, 255, 0, 198] }

/-- A session mid-drag, before a new volume is loaded. -/
noncomputable def sessionExample : Session :=
  { rl := rl_dragging_example
    fourth := fourthInit
    volume := some imgExample }

/-- A different, newly loaded volume. -/
noncomputable def imgNewExample : ImageData :=
  { dims := ![128, 128, 64]
    bounds := ![0, 127, 0, 127, 0, 126] }

/-- C9, counterexample.  The claim says a new-volume load resets the
reference-line state to angle 0 and cancels any in-flight drag (back to
Idle).  Loading a new volume into a session whose manager holds angle 45 mid
rotate-drag leaves the angle at 45 (≠ 0) and the drag still active: nothing
in the load path touches the manager. -/
theorem volume_load_no_reset_counterexample :
    (load_data sessionExample imgNewExample).rl.line_angle = 45 ∧
    (45 : ℝ) ≠ 0 ∧
    (load_data sessionExample imgNewExample).rl.is_dragging = true := by
  refine ⟨rfl, by norm_num, rfl⟩

/-- C9, amended.  A new-volume load leaves the reference-line manager's
state — angle, center, control points and any in-flight drag — completely
untouched; the only geometry state it re-initializes is the fourth viewer's
oblique center, which becomes the new volume's geometric center.  (The line
center is re-derived from a volume's bounds only later, by
`_update_line_geometry`, and only when it is still the never-initialized
`[0, 0]`.) -/
theorem volume_load_preserves_line_manager_state (s : Session) (im : ImageData) :
    (load_data s im).rl = s.rl ∧
    (load_data s im).fourth.oblique_center = imageCenter im ∧
    (load_data s im).volume = some im :=
  ⟨rfl, rfl, rfl⟩

/-- C10.  Every polyline loop returned by the outline mode's
`_extract_contours` comes from the external contour tracer invoked at
isovalue 0.5 on the computed binary mask, and every loop with 20 or fewer
points has been discarded: no returned loop has fewer than 21 points. -/
theorem outline_contour_min_length (ops : SkimageOps) (sliceArr : List (List ℚ))
    (c : List (ℚ × ℚ)) (hmem : c ∈ extract_contours ops sliceArr) :
    20 < c.length ∧
    ∃ m, binary_mask ops sliceArr = some m ∧ c ∈ ops.find_contours m 0.5 := by
  cases hbm : binary_mask ops sliceArr with
  | none => simp [extract_contours, hbm] at hmem
  | some m =>
    simp [extract_contours, hbm, List.mem_filter] at hmem
    exact ⟨hmem.2, m, rfl, hmem.1⟩

/-- Concrete stand-ins for the external skimage calls: Otsu threshold 1/2,
identity cleanup, and a tracer returning one 21-point loop and one 3-point
loop. -/
def opsExample : SkimageOps :=
  { threshold_otsu := fun _ => 1/2
    remove_small_objects := fun m _ => m
    binary_closing := fun m _ => m
    find_contours := fun _ _ => [List.replicate 21 (0, 0), List.replicate 3 (0, 0)] }

/-- C10, witness: on the slice `[[0, 1]]` the 21-point loop is returned (the
3-point loop is filtered away) and satisfies the bound. -/
theorem outline_contour_min_length_witness :
    (List.replicate 21 ((0 : ℚ), (0 : ℚ)) ∈ extract_contours opsExample [[0, 1]]) ∧
    (20 < (List.replicate 21 ((0 : ℚ), (0 : ℚ))).length ∧
      ∃ m, binary_mask opsExample [[0, 1]] = some m ∧
        List.replicate 21 ((0 : ℚ), (0 : ℚ)) ∈ opsExample.find_contours m 0.5) :=
  ⟨by decide, outline_contour_min_length opsExample [[0, 1]] _ (by decide)⟩

/-- C5.  During a rotate drag the shared angle is recomputed from the
absolute cursor position relative to the center with `arctan2` — never by
accumulating deltas — so the state after any sweep (any step size, through
±180° or a full 360°) is a function of the final event position alone: two
sweeps ending at the same position (in particular, a full 360° sweep and the
empty sweep ending at the angle-0 position) leave identical line geometry and
identical resulting oblique-plane transforms — exact equality, hence within
any floating tolerance. -/
theorem rotate_gesture_absolute_angle_roundtrip (s : RLState) (v : ViewName)
    (img : Option ImageData) (ps qs : List (ℝ × ℝ)) (p : ℝ × ℝ)
    (c3 : Fin 3 → ℝ) (prev : Matrix (Fin 4) (Fin 4) ℝ)
    (h1 : s.is_dragging = true) (h2 : s.drag_type = some DragType.rotate)
    (h3 : s.active_view = some v) (hc : s.line_center ≠ (0 : ℝ × ℝ)) :
    motionsFold s v img (ps ++ [p]) = motionsFold s v img (qs ++ [p]) ∧
    (motionsFold s v img (ps ++ [p])).line_angle =
      degrees (atan2 (p.2 - s.line_center.2) (p.1 - s.line_center.1)) ∧
    set_oblique_angle (motionsFold s v img (ps ++ [p])).line_angle c3 prev =
      set_oblique_angle (motionsFold s v img (qs ++ [p])).line_angle c3 prev := by
  have ha := motionsFold_absorb v img ps s p h1 h2 h3 hc
  have hb := motionsFold_absorb v img qs s p h1 h2 h3 hc
  have hfld := rotate_motion_fields s v img p h1 h2 h3 hc
  refine ⟨ha.trans hb.symm, ?_, ?_⟩
  · rw [ha]
    exact hfld.2.2.2.2
  · rw [ha, hb]

/-- C5, witness: from a mid-drag state centered at (5,5), a four-step sweep
around the center ending at (6,5) gives the same state and the same oblique
transform as the one-step gesture to (6,5). -/
theorem rotate_gesture_absolute_angle_roundtrip_witness :
    (rl_dragging_example.is_dragging = true ∧
      rl_dragging_example.drag_type = some DragType.rotate ∧
      rl_dragging_example.active_view = some ViewName.axial ∧
      rl_dragging_example.line_center ≠ (0 : ℝ × ℝ)) ∧
    (motionsFold rl_dragging_example ViewName.axial none
        ([(6, 5), (5, 6), (4, 5), (5, 4)] ++ [(6, 5)]) =
      motionsFold rl_dragging_example ViewName.axial none ([] ++ [(6, 5)]) ∧
    (motionsFold rl_dragging_example ViewName.axial none
        ([(6, 5), (5, 6), (4, 5), (5, 4)] ++ [(6, 5)])).line_angle =
      degrees (atan2 ((6, 5).2 - rl_dragging_example.line_center.2)
        ((6, 5).1 - rl_dragging_example.line_center.1)) ∧
    set_oblique_angle (motionsFold rl_dragging_example ViewName.axial none
        ([(6, 5), (5, 6), (4, 5), (5, 4)] ++ [(6, 5)])).line_angle (fun _ => 0) 1 =
      set_oblique_angle (motionsFold rl_dragging_example ViewName.axial none
        ([] ++ [(6, 5)])).line_angle (fun _ => 0) 1) :=
  ⟨⟨rfl, rfl, rfl, by simp [rl_dragging_example, rl_init]⟩,
    rotate_gesture_absolute_angle_roundtrip rl_dragging_example ViewName.axial none
      [(6, 5), (5, 6), (4, 5), (5, 4)] [] (6, 5) (fun _ => 0) 1 rfl rfl rfl
      (by simp [rl_dragging_example, rl_init])⟩

theorem atan2_one_zero : atan2 1 0 = Real.pi / 2 := by
  have hI : ({ re := 0, im := 1 } : ℂ) = Complex.I := rfl
  rw [atan2, hI, Complex.arg_I]

theorem degrees_pi_div_two : degrees (Real.pi / 2) = 90 := by
  rw [degrees]
  field_simp
  ring

/-- C8, counterexample.  The claim says `angleDegrees` is maintained per
orthogonal view and a drag in one view leaves every other view's line state
unchanged.  The source keeps a single shared `line_angle`: a rotate-drag
motion in the axial view (cursor at (5,6), one unit above the shared center
(5,5)) changes the angle from which the coronal view's line is drawn from 45
to 90. -/
theorem line_state_shared_counterexample :
    line_angle_used (handle_mouse_motion rl_dragging_example ViewName.axial none
        (some (5, 6))) ViewName.coronal = 90 ∧
    line_angle_used rl_dragging_example ViewName.coronal = 45 ∧
    (90 : ℝ) ≠ 45 := by
  refine ⟨?_, rfl, by norm_num⟩
  have hfld := rotate_motion_fields rl_dragging_example ViewName.axial none (5, 6)
    rfl rfl rfl (by simp [rl_dragging_example, rl_init])
  rw [line_angle_used, hfld.2.2.2.2]
  have hcen : rl_dragging_example.line_center = ((5 : ℝ), (5 : ℝ)) := rfl
  rw [hcen]
  norm_num [atan2_one_zero, degrees_pi_div_two]

/-- C8, amended.  Only the drawn actors are per-view: a rotate-drag motion in
view `v` leaves every other view's line endpoints and control-point actor
positions unchanged, but it mutates the single shared `line_angle` field — so
the angle from which every other view's line would next be drawn becomes the
drag's new absolute angle (it is not per-view state). -/
theorem drag_mutation_scope (s : RLState) (v w : ViewName)
    (img : Option ImageData) (p : ℝ × ℝ)
    (h1 : s.is_dragging = true) (h2 : s.drag_type = some DragType.rotate)
    (h3 : s.active_view = some v) (hc : s.line_center ≠ (0 : ℝ × ℝ))
    (hw : w ≠ v) :
    (handle_mouse_motion s v img (some p)).ref_lines w = s.ref_lines w ∧
    (∀ pt, (handle_mouse_motion s v img (some p)).control_points w pt =
      s.control_points w pt) ∧
    line_angle_used (handle_mouse_motion s v img (some p)) w =
      degrees (atan2 (p.2 - s.line_center.2) (p.1 - s.line_center.1)) := by
  rw [rotate_motion_eq s v img p h1 h2 h3]
  cases hrl : s.ref_lines v with
  | none => simp [update_line_geometry, hrl, line_angle_used]
  | some w' =>
    cases img with
    | none => simp [update_line_geometry, hrl, line_angle_used]
    | some im => simp [update_line_geometry, hrl, hc, hw, line_angle_used]

/-- C8, witness: the axial drag of the counterexample leaves the coronal
actors untouched while setting the shared angle. -/
theorem drag_mutation_scope_witness :
    (rl_dragging_example.is_dragging = true ∧
      rl_dragging_example.drag_type = some DragType.rotate ∧
      rl_dragging_example.active_view = some ViewName.axial ∧
      rl_dragging_example.line_center ≠ (0 : ℝ × ℝ) ∧
      ViewName.coronal ≠ ViewName.axial) ∧
    ((handle_mouse_motion rl_dragging_example ViewName.axial none
        (some (5, 6))).ref_lines ViewName.coronal =
      rl_dragging_example.ref_lines ViewName.coronal ∧
    (∀ pt, (handle_mouse_motion rl_dragging_example ViewName.axial none
        (some (5, 6))).control_points ViewName.coronal pt =
      rl_dragging_example.control_points ViewName.coronal pt) ∧
    line_angle_used (handle_mouse_motion rl_dragging_example ViewName.axial none
        (some (5, 6))) ViewName.coronal =
      degrees (atan2 ((5, 6).2 - rl_dragging_example.line_center.2)
        ((5, 6).1 - rl_dragging_example.line_center.1))) :=
  ⟨⟨rfl, rfl, rfl, by simp [rl_dragging_example, rl_init], by decide⟩,
    drag_mutation_scope rl_dragging_example ViewName.axial ViewName.coronal none
      (5, 6) rfl rfl rfl (by simp [rl_dragging_example, rl_init]) (by decide)⟩

end MPR
